import Mathlib

/-!
Shallow embedding of the bugzer_browser backend (HTTP gateway, agent plugin
registry, provider factory, streaming and batch browser-automation agents) and
proofs about the behaviour its specification describes.

Python values are embedded as plain Lean data: machine integers as `Int`/`Nat`,
wall-clock times as `ℚ`, fallible calls as `Except`, and the module-level
mutable state touched by each endpoint as explicit state records threaded
through the embedded functions.
-/

namespace Bugzer

/-- Python exceptions the embedded functions can raise. -/
inductive PyErr where
  | valueError (msg : String)
  | nameError (name : String)
  | typeError (msg : String)
  deriving DecidableEq, Repr

/-! ## Agent plugin registry (src/api/plugins/__init__.py) -/

/-- The agent-type enumeration `WebAgentType` (src/api/plugins/__init__.py lines
20-24). -/
inductive WebAgentType where
  | BASE
  | EXAMPLE
  | BROWSER_USE
  | BROWSER_USE_BATCH
  deriving DecidableEq, Repr

/-- The string value of each enumeration member. -/
def WebAgentType.value : WebAgentType → String
  | .BASE => "base"
  | .EXAMPLE => "example"
  | .BROWSER_USE => "browser_use_agent"
  | .BROWSER_USE_BATCH => "browser_use_batch"

/-- How Python renders a member inside an f-string (`str` of an enum member). -/
def WebAgentType.pyStr : WebAgentType → String
  | .BASE => "WebAgentType.BASE"
  | .EXAMPLE => "WebAgentType.EXAMPLE"
  | .BROWSER_USE => "WebAgentType.BROWSER_USE"
  | .BROWSER_USE_BATCH => "WebAgentType.BROWSER_USE_BATCH"

/-- The executable agent entry points defined by the repository. -/
inductive AgentEntry where
  | base_agent
  | browser_use_agent
  | browser_use_agent_batch
  deriving DecidableEq, Repr

/-- The agent entry points bound in the module namespace of
src/api/plugins/__init__.py: line 13 imports `base_agent` and line 14 imports
`browser_use_agent`; no other entry point is imported or defined there, so a
lookup of any other name in a function body raises `NameError` at call time. -/
def pluginsModuleGlobals : String → Option AgentEntry
  | "base_agent" => some .base_agent
  | "browser_use_agent" => some .browser_use_agent
  | _ => none

/-- Resolution of a global name at call time: the binding, or `NameError`. -/
def resolveGlobal (name : String) : Except PyErr AgentEntry :=
  match pluginsModuleGlobals name with
  | some e => .ok e
  | none => .error (.nameError name)

/-- `get_web_agent` (src/api/plugins/__init__.py lines 161-173): dispatch from
agent type to entry point. The names in the `return` statements are resolved in
the module namespace when the branch executes. -/
def get_web_agent (name : WebAgentType) : Except PyErr AgentEntry :=
  if name = .BASE then resolveGlobal "base_agent"
  else if name = .BROWSER_USE then resolveGlobal "browser_use_agent"
  else if name = .BROWSER_USE_BATCH then resolveGlobal "browser_use_agent_batch"
  else .error (.valueError ("Invalid agent type: " ++ name.pyStr))

/-! ## LLM provider factory (src/api/providers.py) -/

/-- Modelled from the spec: the `ModelProvider` enumeration of src/api/models.py,
a file that is not among the repository files provided; section 4.1 of the spec
fixes its five members. -/
inductive ModelProvider where
  | OPENAI
  | AZURE_OPENAI
  | ANTHROPIC
  | GEMINI
  | DEEPSEEK
  deriving DecidableEq, Repr

/-- A runtime value standing where a `ModelProvider` is expected: either an
actual enumeration member or any other Python value (kept by its textual form).
The equality tests `config.provider == ModelProvider.X` in `create_llm` are
false for every non-member value, which is what makes the final `else` branch
reachable. -/
inductive ProviderValue where
  | member (p : ModelProvider)
  | other (text : String)
  deriving DecidableEq, Repr

/-- Modelled from the spec: the `ModelConfig` value object of src/api/models.py
(not among the provided files); section 3 of the spec lists its fields.  Only
the fields `create_llm` reads are carried here; `extra_params` is the open
key/value map forwarded verbatim to the client constructor. -/
structure ModelConfig where
  provider : ProviderValue
  model_name : Option String := none
  api_key : Option String := none
  temperature : Option ℚ := none
  max_tokens : Option ℕ := none
  extra_params : List (String × String) := []
  deriving DecidableEq, Repr

/-- The process environment read through `os.getenv`. -/
def Env : Type := String → Option String

/-- `os.getenv(key)`. -/
def Env.get (env : Env) (key : String) : Option String := env key

/-- `os.getenv(key, default)`. -/
def Env.getD (env : Env) (key default : String) : String := (env key).getD default

/-- Python truthiness of an optional string: `None` and the empty string are
falsy. -/
def optStrTruthy : Option String → Bool
  | none => false
  | some s => s ≠ ""

/-- Python `opt or default` for an optional string against a string default. -/
def orDefault (opt : Option String) (default : String) : String :=
  match opt with
  | some s => if s = "" then default else s
  | none => default

/-- The chat-model client values `create_llm` constructs: one constructor per
library class, carrying the constructor arguments the source passes.
`betaChatAnthropic` is the subclass defined at src/api/providers.py lines 17-50;
it is listed so that statements can distinguish it from the plain
`chatAnthropic` the factory actually builds. -/
inductive ChatClient where
  | azureChatOpenAI (azure_deployment : String) (temperature : Option ℚ)
      (max_tokens : Option ℕ) (openai_api_key : Option String)
      (openai_api_version : String) (azure_endpoint : String)
      (extra : List (String × String))
  | chatOpenAI (base_url : Option String) (model_name : String)
      (temperature : Option ℚ) (max_tokens : Option ℕ)
      (api_key : Option String) (extra : List (String × String))
  | chatAnthropic (model : String) (max_tokens_to_sample : Option ℕ)
      (temperature : Option ℚ) (api_key : Option String)
      (extra : List (String × String))
  | betaChatAnthropic (model : String) (max_tokens_to_sample : Option ℕ)
      (temperature : Option ℚ) (api_key : Option String)
      (extra : List (String × String))
  | chatGoogleGenerativeAI (model : String) (temperature : Option ℚ)
      (max_output_tokens : Option ℕ) (google_api_key : Option String)
      (extra : List (String × String))
  deriving DecidableEq, Repr

/-- Which messages endpoint a client's calls go through. -/
inductive MessagesEndpoint where
  | standard
  | beta
  deriving DecidableEq, Repr

/-- `BetaChatAnthropic` (src/api/providers.py lines 17-32) overrides `_client`
and `_async_client` to substitute `client.beta.messages` for `client.messages`
on first access, so its calls go through the beta endpoint; every other client,
the plain `ChatAnthropic` included, keeps the standard endpoint. -/
def ChatClient.messagesEndpoint : ChatClient → MessagesEndpoint
  | .betaChatAnthropic _ _ _ _ _ => .beta
  | _ => .standard

/-- A tool value as supplied to `bind_tools`: a dict that carries a "type" key
(native Anthropic format), a dict without one, or a non-dict tool object. -/
inductive ToolSpec where
  | dictWithType (payload : String)
  | dictNoType (payload : String)
  | objectTool (payload : String)
  deriving DecidableEq, Repr

/-- One tool after preparation for the Anthropic API: either passed through
unchanged or run through `convert_to_anthropic_tool` (the standard tool-schema
conversion). -/
inductive PreparedTool where
  | passedThrough (t : ToolSpec)
  | converted (t : ToolSpec)
  deriving DecidableEq, Repr

/-- `BetaChatAnthropic.bind_tools` (src/api/providers.py lines 34-50): a dict
that already has a "type" key is appended as-is; anything else goes through
`convert_to_anthropic_tool`. -/
def betaBindTools (tools : List ToolSpec) : List PreparedTool :=
  tools.map fun t =>
    match t with
    | .dictWithType _ => .passedThrough t
    | _ => .converted t

/-- The tool preparation of the plain `ChatAnthropic.bind_tools` that the
factory's returned client inherits (the langchain default, not overridden
anywhere for `ChatAnthropic`): every tool is converted to the standard
Anthropic schema. -/
def standardBindTools (tools : List ToolSpec) : List PreparedTool :=
  tools.map .converted

/-- Tool preparation performed by a client's `bind_tools`: only the
`BetaChatAnthropic` subclass passes native-format dicts through. -/
def ChatClient.bindToolsAnthropic : ChatClient → List ToolSpec → List PreparedTool
  | .betaChatAnthropic _ _ _ _ _, ts => betaBindTools ts
  | _, ts => standardBindTools ts

/-- How `create_llm`'s final `else` branch renders the provider value inside
the f-string. -/
def ProviderValue.pyStr : ProviderValue → String
  | .member .OPENAI => "ModelProvider.OPENAI"
  | .member .AZURE_OPENAI => "ModelProvider.AZURE_OPENAI"
  | .member .ANTHROPIC => "ModelProvider.ANTHROPIC"
  | .member .GEMINI => "ModelProvider.GEMINI"
  | .member .DEEPSEEK => "ModelProvider.DEEPSEEK"
  | .other t => t

/-- `create_llm` (src/api/providers.py lines 53-114): dispatch by provider to a
configured client plus the vision flag. -/
def create_llm (config : ModelConfig) (env : Env) : Except PyErr (ChatClient × Bool) :=
  if config.provider = .member .AZURE_OPENAI then
    .ok (.azureChatOpenAI (orDefault config.model_name "gpt-4o-mini")
      config.temperature config.max_tokens
      (if optStrTruthy config.api_key then config.api_key
       else env.get "AZURE_OPENAI_API_KEY")
      (env.getD "OPENAI_API_VERSION" "2025-01-01-preview")
      (env.getD "AZURE_OPENAI_ENDPOINT" "") config.extra_params, true)
  else if config.provider = .member .OPENAI then
    .ok (.chatOpenAI none (orDefault config.model_name "gpt-4o-mini")
      config.temperature config.max_tokens
      (if optStrTruthy config.api_key then config.api_key
       else env.get "OPENAI_API_KEY") config.extra_params, true)
  else if config.provider = .member .ANTHROPIC then
    .ok (.chatAnthropic (orDefault config.model_name "claude-3-7-sonnet-latest")
      config.max_tokens config.temperature
      (if optStrTruthy config.api_key then config.api_key
       else env.get "ANTHROPIC_API_KEY") config.extra_params, true)
  else if config.provider = .member .GEMINI then
    .ok (.chatGoogleGenerativeAI (orDefault config.model_name "gemini-2.0-flash")
      config.temperature config.max_tokens
      (if optStrTruthy config.api_key then config.api_key
       else env.get "GOOGLE_API_KEY") config.extra_params, true)
  else if config.provider = .member .DEEPSEEK then
    .ok (.chatOpenAI (some "https://api.deepseek.com/v1")
      (orDefault config.model_name "deepseek-chat")
      config.temperature config.max_tokens
      (some (if optStrTruthy config.api_key then (config.api_key).getD ""
             else env.getD "DEEPSEEK_API_KEY" "")) config.extra_params, false)
  else .error (.valueError ("Unsupported provider: " ++ config.provider.pyStr))

/-- Whether a call produced a (client, vision flag) pair. -/
def returnsPair (r : Except PyErr (ChatClient × Bool)) : Bool :=
  match r with
  | .ok _ => true
  | .error _ => false

/-! ## HTTP gateway: session creation (src/api/index.py lines 81-89) -/

/-- `SessionRequest` (src/api/schemas.py lines 9-12): `timeout` is optional
with default 90000 (milliseconds per the spec, section 6). -/
structure SessionRequest where
  agent_type : WebAgentType
  api_key : Option String := none
  timeout : Option Int := some 90000
  deriving DecidableEq, Repr

/-- The argument record `create_session` passes to
`steel_client.sessions.create`. -/
structure SessionsCreateCall where
  api_timeout : Int
  deriving DecidableEq, Repr

/-- `create_session` (src/api/index.py lines 81-89): forwards
`request.timeout * 1000` as the remote call's `api_timeout`.  A request whose
timeout is explicitly null makes the multiplication raise `TypeError`. -/
def create_session (request : SessionRequest) : Except PyErr SessionsCreateCall :=
  match request.timeout with
  | some t => .ok ⟨t * 1000⟩
  | none => .error (.typeError "unsupported operand type(s) for *: NoneType and int")

/-! ## HTTP gateway: chat dispatch (src/api/index.py lines 209-314) -/

/-- A caller-supplied chat turn.  `ClientMessage` lives in src/api/utils/prompt.py,
which is not among the provided files; section 3 of the spec gives its
role/content shape (attachments are not read by the dispatch path). -/
structure ClientMessage where
  role : String
  content : String
  deriving DecidableEq, Repr

/-- Modelled from the spec: `convert_to_chat_messages` of src/api/utils/prompt.py
(not among the provided files); per section 4.2 it converts the ordered turn
list into the plain role/content mapping sequence, preserving order and
dropping nothing. -/
def convert_to_chat_messages (messages : List ClientMessage) : List (String × String) :=
  messages.map fun m => (m.role, m.content)

/-- Modelled from the spec: `ModelSettings` of src/api/utils/types.py (not among
the provided files); section 3 lists `model_choice` plus optional numeric
fields.  Only the fields `handle_chat` copies into the `ModelConfig` are
carried. -/
structure ModelSettings where
  model_choice : String
  temperature : Option ℚ := none
  max_tokens : Option ℕ := none
  deriving DecidableEq, Repr

/-- Modelled from the spec: `AgentSettings` of src/api/utils/types.py (not among
the provided files); section 3 gives a `steps` integer. -/
structure AgentSettings where
  steps : ℕ
  deriving DecidableEq, Repr

/-- `ChatRequest` (src/api/schemas.py lines 15-22), restricted to the fields
`handle_chat` reads. -/
structure ChatRequest where
  session_id : String
  agent_type : WebAgentType
  provider : ProviderValue := .member .ANTHROPIC
  messages : List ClientMessage
  api_key : String := ""
  agent_settings : AgentSettings
  model_settings : ModelSettings
  deriving DecidableEq, Repr

/-- The slice of the process-wide `SessionAwareController` state that
`handle_chat` reads and writes (src/api/plugins/browser_use/agent.py lines
44-66): the bound session id (initially `None`) and the finished flag. -/
structure ControllerState where
  session_id : Option String
  finished : Bool
  deriving DecidableEq, Repr

/-- The response `handle_chat` resolves to.  `emptyStream` is the streamed
empty-stream encoding the no-op branches construct
(`stream_vercel_format(empty_stream())`); `errorEnvelope` is the structured
JSON error body the `except` clause at line 304 raises for any exception in
the `try` block, with the HTTP status defaulting to 500. -/
inductive ChatOutcome where
  | emptyStream
  | badRequestSessionId
  | agentStream (agent : AgentEntry) (config : ModelConfig)
      (history : List (String × String)) (sessionId : String)
  | errorEnvelope (err : PyErr)
  deriving DecidableEq, Repr

/-- Whether src/api/index.py's module namespace binds a given helper name
used by `handle_chat`'s response-building expressions: line 9 imports only
`stream_vercel_format` from `.streamer`, and `empty_stream` is neither
imported nor defined anywhere in the module, so evaluating `empty_stream()`
at lines 223 and 241 raises `NameError` at run time. -/
def indexModuleBinds : String → Bool
  | "stream_vercel_format" => true
  | _ => false

/-- What one call of `handle_chat` produced: the response, the controller state
after the call, and whether a new agent run was instantiated. -/
structure ChatDispatch where
  outcome : ChatOutcome
  controller : ControllerState
  agentCreated : Bool
  deriving DecidableEq, Repr

/-- `handle_chat` (src/api/index.py lines 209-314).  The empty-message check at
line 220 runs before the session-id check at line 227 and before the controller
is rebound at lines 246-247; the `except` clause at line 304 converts any
exception raised during dispatch (`get_web_agent`'s `NameError` included) into
the JSON error envelope.  The no-op branches at lines 222-225 and 240-243 build
their response as `stream_vercel_format(empty_stream())`: the name
`empty_stream` is resolved in the module namespace when the branch executes,
and since the module never binds it (see `indexModuleBinds`), those branches
raise `NameError`, which the `except` clause turns into the 500 envelope. -/
def handle_chat (request : ChatRequest) (ctrl : ControllerState) : ChatDispatch :=
  let messages := request.messages
  let chat_messages := convert_to_chat_messages messages
  if messages = [] ∨ (messages ≠ [] ∧ (messages.getLast?.map ClientMessage.content = some "")) then
    if indexModuleBinds "empty_stream" then ⟨.emptyStream, ctrl, false⟩
    else ⟨.errorEnvelope (.nameError "empty_stream"), ctrl, false⟩
  else if request.session_id = "" then
    ⟨.badRequestSessionId, ctrl, false⟩
  else if ctrl.session_id = some request.session_id ∧ ctrl.finished then
    if indexModuleBinds "empty_stream" then ⟨.emptyStream, ctrl, false⟩
    else ⟨.errorEnvelope (.nameError "empty_stream"), ctrl, false⟩
  else
    let ctrl2 : ControllerState := ⟨some request.session_id, false⟩
    let model_config : ModelConfig :=
      { provider := request.provider
        model_name := some request.model_settings.model_choice
        api_key := some request.api_key
        temperature := request.model_settings.temperature
        max_tokens := request.model_settings.max_tokens
        extra_params := [] }
    match get_web_agent request.agent_type with
    | .ok agent =>
        ⟨.agentStream agent model_config chat_messages request.session_id, ctrl2, true⟩
    | .error e => ⟨.errorEnvelope e, ctrl2, false⟩

/-! ## HTTP gateway: resume with cooldown and retries (src/api/index.py lines 105-193) -/

/-- Result of one invocation of the underlying `resume_execution`
(src/api/plugins/browser_use/agent.py line 557): the endpoint only inspects
whether `result.get("status") == "success"`, and an invocation may also
raise. -/
inductive ResumeResult where
  | success
  | failure
  | raises
  deriving DecidableEq, Repr

/-- The responses `resume_session` can produce. -/
inductive ResumeResponse where
  | alreadyInProgress (timestamp : ℚ)
  | resumedOk (timestamp : ℚ)
  | failedAfterRetries
  | httpError
  deriving DecidableEq, Repr

/-- The "status" field of the JSON body each response shape carries
(src/api/index.py lines 118-123, 139-144, 176-180 and 186-193; `httpError` is
the HTTP 500 raised at line 182). -/
def ResumeResponse.statusStr : ResumeResponse → String
  | .alreadyInProgress _ => "success"
  | .resumedOk _ => "success"
  | .failedAfterRetries => "error"
  | .httpError => "error"

/-- The gateway's per-session resume bookkeeping
(src/api/index.py lines 50-52): `session_last_resume`. -/
structure ResumeState where
  last_resume : List (String × ℚ)
  deriving DecidableEq, Repr

/-- The attempt loop of `resume_session` (src/api/index.py lines 150-182), run
once the lock is held and the timestamp recorded: up to 2 attempts; a
non-success result retries after a 200 ms sleep; an attempt that raised leaves
`last_error` set, and it is re-raised (surfacing as HTTP 500) after the loop
unless a later attempt returned success. -/
def resumeAttempts (a1 a2 : ResumeResult) (now : ℚ) : ResumeResponse × ℕ :=
  match a1 with
  | .success => (.resumedOk now, 1)
  | .failure =>
    match a2 with
    | .success => (.resumedOk now, 2)
    | .failure => (.failedAfterRetries, 2)
    | .raises => (.httpError, 2)
  | .raises =>
    match a2 with
    | .success => (.resumedOk now, 2)
    | .failure => (.httpError, 2)
    | .raises => (.httpError, 2)

/-- One fully-run call of `resume_session` (src/api/index.py lines 105-193) for
`session_id` at wall-clock time `now` (seconds, as `time.time()`), with the
results of the underlying `resume_execution` invocations supplied by
`attempts` (applied at 0, 1, ... in invocation order).  Calls are modelled as
non-overlapping — the cooperative event loop runs each request here to
completion — so the per-session lock is always free, acquired at once and
released in the `finally`.  Returns the response, the updated bookkeeping and
the number of `resume_execution` invocations this call made. -/
def resume_session (session_id : String) (now : ℚ) (attempts : ℕ → ResumeResult)
    (st : ResumeState) : ResumeResponse × ResumeState × ℕ :=
  let cooldownHit : Bool :=
    match st.last_resume.lookup session_id with
    | some t => decide (now - t < 1)
    | none => false
  if cooldownHit then (.alreadyInProgress now, st, 0)
  else
    let st2 : ResumeState := ⟨(session_id, now) :: st.last_resume⟩
    let (resp, n) := resumeAttempts (attempts 0) (attempts 1) now
    (resp, st2, n)

/-! ## Batch browser-automation agent: history validation
(src/api/plugins/browser_use/agent.py lines 2073-2302) -/

/-- A Python value appearing in a chat-history list. -/
inductive HVal where
  | dict (entries : List (String × HVal))
  | str (s : String)
  | otherVal (typeName : String)

/-- How `f"{type(x)}"` renders the value's type. -/
def HVal.pyType : HVal → String
  | .dict _ => "<class 'dict'>"
  | .str _ => "<class 'str'>"
  | .otherVal t => t

/-- Python dict key lookup (`d[k]`, first matching key). -/
def dictGet? (entries : List (String × HVal)) (key : String) : Option HVal :=
  (entries.find? fun kv => kv.1 = key).map Prod.snd

/-- The defensive history validation of `browser_use_agent_batch`
(src/api/plugins/browser_use/agent.py lines 2100-2112): the error string the
function returns for an invalid history, or `none` when the history passes. -/
def batchHistoryCheck (history : List HVal) : Option String :=
  match history.getLast? with
  | none => some "Error: Task history is empty."
  | some lastItem =>
    match lastItem with
    | .dict entries =>
      match dictGet? entries "content" with
      | none => some "Error: Invalid history format (missing 'content' key)."
      | some v =>
        match v with
        | .str _ => none
        | _ => some ("Error: Invalid history format (content type: " ++ v.pyType ++ ").")
    | _ => some ("Error: Invalid history format (last item type: " ++ lastItem.pyType ++ ").")

/-- What one batch run produced: the returned report-or-error string and
whether a Browser was constructed for the session. -/
structure BatchOutcome where
  result : String
  browserCreated : Bool
  deriving DecidableEq, Repr

/-- `browser_use_agent_batch` (src/api/plugins/browser_use/agent.py lines
2073-2302), cut at the boundary the validation claims need: when the history
check fails, its error string is returned before the `try` block that
constructs the `Browser` at line 2149, so no browser or browsing context is
created; otherwise the browser is constructed and the remainder of the run —
which drives the external automation runtime — is the parameter `runRest`,
applied to the validated task description (`history[-1]["content"]`). -/
def browser_use_agent_batch (runRest : String → String) (history : List HVal) :
    BatchOutcome :=
  match batchHistoryCheck history with
  | some err => ⟨err, false⟩
  | none =>
    let task :=
      match history.getLast? with
      | some (.dict entries) =>
        match dictGet? entries "content" with
        | some (.str s) => s
        | _ => ""
      | _ => ""
    ⟨runRest task, true⟩

/-! ## Streaming browser-automation agent
(src/api/plugins/browser_use/agent.py lines 1044-1557) -/

/-- An item the callbacks place on the run's queue and the consumption loop
reads from it: an `AIMessage` (tool calls kept by name), the `{"stop": True}`
marker dict, a `ToolMessage` with empty content, or the `"END"` sentinel
string. -/
inductive QueueItem where
  | ai (content : String) (tool_calls : List String)
  | stopFlag
  | toolOutput (tool_call_id : String)
  | endSignal
  deriving DecidableEq, Repr

/-- Whether `pat` occurs as a contiguous sublist. -/
def listIsInfix (pat : List Char) : List Char → Bool
  | [] => pat.isEmpty
  | c :: rest => pat.isPrefixOf (c :: rest) || listIsInfix pat rest

/-- Python's substring test `pat in s`. -/
def strContains (s pat : String) : Bool :=
  listIsInfix pat.toList s.toList

/-- The `agent_output.current_state` fields the step callback reads; the empty
string plays the role of a missing/falsy value. -/
structure AgentBrain where
  evaluation_previous_goal : String
  memory : String
  next_goal : String
  deriving DecidableEq, Repr

/-- The dumped payload dict of one action: parameter name to value, a value of
`none` standing for Python `None` (dropped by the tool-call argument filter). -/
abbrev ActionPayload := List (String × Option String)

/-- One dumped action model of a step: `model_dump().items()` in order, each
action key mapped to its payload (`none` when the runtime dumped `None` for
that key). -/
abbrev ActionModel := List (String × Option ActionPayload)

/-- Python truthiness of a dumped action value: `None` and the empty dict are
falsy. -/
def payloadTruthy : Option ActionPayload → Bool
  | none => false
  | some p => !p.isEmpty

/-- `value["text"]` of a done payload.  The runtime's done action always
carries a `text` parameter; a missing key (which would raise `KeyError`) is
rendered as the empty string. -/
def payloadText (p : ActionPayload) : String :=
  match p.lookup "text" with
  | some (some s) => s
  | _ => ""

/-- The tool-call argument filter `{k: v for k, v in value.items() if v is not
None}` (line 1160). -/
def filterArgs (p : ActionPayload) : List (String × String) :=
  p.filterMap fun kv => kv.2.map fun v => (kv.1, v)

/-- The `has_done_action` scan of lines 1081-1089: some dumped pair has key
"done" with a truthy value. -/
def hasDoneAction (actions : List ActionModel) : Bool :=
  actions.flatten.any fun kv => kv.1 == "done" && payloadTruthy kv.2

/-- The previous-goal / memory / next-goal messages queued at lines 1056-1075,
each followed by the `{"stop": True}` marker. -/
def specialMessages (step_number : ℕ) (brain : AgentBrain) : List QueueItem :=
  (if 2 < step_number ∧ brain.evaluation_previous_goal ≠ "" then
    [QueueItem.ai ("*Previous Goal*:\n" ++ brain.evaluation_previous_goal) [], QueueItem.stopFlag]
  else []) ++
  (if brain.memory ≠ "" then
    [QueueItem.ai ("*Memory*:\n" ++ brain.memory) [], QueueItem.stopFlag]
  else []) ++
  (if brain.next_goal ≠ "" then
    [QueueItem.ai ("*Next Goal*:\n" ++ brain.next_goal) [], QueueItem.stopFlag]
  else [])

/-- The HTML fragment of the bare done message (line 1109). -/
def bareDoneMessage (text : String) : String :=
  "<div style='font-size:16px;padding:10px;'>✅ " ++ text ++ "</div>"

/-- The combined done-plus-report message of lines 1129-1131. -/
def combinedDoneMessage (text report : String) : String :=
  "<div style='font-size:16px;padding:10px;background:#f0f0f0;border-radius:8px;margin:10px 0;'>✅ "
    ++ text ++ "</div>" ++ "\n\n" ++
  "<div style='font-size:15px;padding:15px;background:#f8f8f8;border-radius:8px;border:2px solid #ddd;margin:15px 0;white-space:pre-wrap;'>"
    ++ report ++ "</div>"

/-- The run-scoped flags `yield_data` reads and writes:
`yield_data._done_processed` (the function-local static) and
`controller.finished`. -/
structure StepFlags where
  doneProcessed : Bool
  finished : Bool
  deriving DecidableEq, Repr

/-- The action-processing loop of `yield_data` (lines 1096-1166), over the
dumped pairs in order.  `reportRes` is what `show_performance_metrics()` at
line 1125 produced (`none` when it raised).  Returns the queued items (in
order), the updated flags, whether the function returned early at line 1144
(which drops the accumulated tool calls), the accumulated tool-call names and
the accumulated tool-output items; `n` numbers the generated tool-call ids,
standing in for `uuid4` (the ids are opaque to every claim). -/
def processPairs (reportRes : Option String) :
    List (String × Option ActionPayload) → StepFlags → List String → List QueueItem → ℕ →
    List QueueItem × StepFlags × Bool × List String × List QueueItem
  | [], fl, tcs, touts, _ => ([], fl, false, tcs, touts)
  | (key, v) :: rest, fl, tcs, touts, n =>
    if payloadTruthy v then
      let p := v.getD []
      if key = "done" then
        if fl.finished ∨ fl.doneProcessed then
          let msgs := [QueueItem.ai (bareDoneMessage (payloadText p)) [], QueueItem.stopFlag]
          let (out, fl2, early, tcs2, touts2) := processPairs reportRes rest fl tcs touts n
          (msgs ++ out, fl2, early, tcs2, touts2)
        else
          let fl2 : StepFlags := ⟨true, true⟩
          match reportRes with
          | some r =>
            if r ≠ "" then
              ([QueueItem.ai (combinedDoneMessage (payloadText p) r) [], QueueItem.stopFlag],
                fl2, true, tcs, touts)
            else
              let msgs := [QueueItem.ai (payloadText p) [], QueueItem.stopFlag]
              let (out, fl3, early, tcs2, touts2) := processPairs reportRes rest fl2 tcs touts n
              (msgs ++ out, fl3, early, tcs2, touts2)
          | none =>
            let msgs := [QueueItem.ai (payloadText p) [], QueueItem.stopFlag]
            let (out, fl3, early, tcs2, touts2) := processPairs reportRes rest fl2 tcs touts n
            (msgs ++ out, fl3, early, tcs2, touts2)
      else
        processPairs reportRes rest fl (tcs ++ [key])
          (touts ++ [QueueItem.toolOutput ("tool_call_" ++ toString n)]) (n + 1)
    else
      processPairs reportRes rest fl tcs touts n

/-- `yield_data` (src/api/plugins/browser_use/agent.py lines 1044-1185): the
items it queues for this step, in order, and the flags it leaves behind. -/
def yield_data (step_number : ℕ) (brain : AgentBrain) (actions : List ActionModel)
    (reportRes : Option String) (fl : StepFlags) : List QueueItem × StepFlags :=
  let specials := specialMessages step_number brain
  let pairs := actions.flatten
  if hasDoneAction actions && (fl.doneProcessed || fl.finished) then
    (specials, fl)
  else
    let (out, fl2, early, tcs, touts) := processPairs reportRes pairs fl [] [] 0
    if early then (specials ++ out, fl2)
    else
      (specials ++ out ++ (if tcs ≠ [] then QueueItem.ai "" tcs :: touts else []), fl2)

/-- The values of the shared mutable flags the loop body reads during one
iteration — `controller.finished`, the module global `_agent_resumed` and
`agent._paused`.  The callbacks run concurrently and mutate them, so each
iteration's reads are supplied as observations. -/
structure LoopObs where
  finished : Bool
  resumed : Bool
  paused : Bool
  deriving DecidableEq, Repr

/-- One scheduling event seen by the consumption loop (lines 1384-1488): the
cancel event set at the top of the iteration, `_too_many_failures()` reporting
true, the 0.5 s queue poll timing out (with the `_agent_resumed` value read in
the handler), or the queue yielding an item. -/
inductive LoopEvent where
  | cancelled
  | tooManyFailures
  | timeout (resumed : Bool)
  | item (data : QueueItem) (obs : LoopObs)
  deriving DecidableEq, Repr

/-- The loop-local state of `browser_use_agent`: `done_called`, `final_report`
(the content of the saved message), `pending_special_messages` and
`has_pending_messages`. -/
structure LoopState where
  done_called : Bool
  final_report : Option String
  pending : List QueueItem
  has_pending : Bool
  deriving DecidableEq, Repr

/-- The state at loop entry (lines 1370-1381). -/
def initLoopState : LoopState := ⟨false, none, [], false⟩

/-- The report markers of line 1423. -/
def hasReportMarker (content : String) : Bool :=
  strContains content "📊" || strContains content "<div" ||
    strContains content "PERFORMANCE REPORT"

/-- The `is_done_or_report_message` classifier (lines 1419-1424), evaluated
against the `controller.finished` value observed in this iteration. -/
def isDoneOrReport (data : QueueItem) (finished : Bool) : Bool :=
  match data with
  | .ai content tcs => tcs.isEmpty && (finished || (content != "" && hasReportMarker content))
  | _ => false

/-- The `is_special_message` classifier (lines 1467-1474). -/
def isSpecial (data : QueueItem) : Bool :=
  match data with
  | .ai content _ =>
    content != "" && (strContains content "*Memory*:" ||
      strContains content "*Next Goal*:" || strContains content "*Previous Goal*:")
  | _ => false

/-- The classification chain of the loop body (lines 1418-1488), run after the
resume flush: `flushed` are the pending messages released this iteration and
`st1` the state after the release.  Returns the items yielded, the new state,
and whether the loop broke. -/
def classifyStep (data : QueueItem) (obs : LoopObs) (flushed : List QueueItem)
    (st1 : LoopState) : List QueueItem × LoopState × Bool :=
  if isDoneOrReport data obs.finished && st1.done_called then (flushed, st1, false)
  else if isDoneOrReport data obs.finished then
    let savedReport :=
      match data with
      | .ai c _ => if c != "" && strContains c "📊" then some c else st1.final_report
      | _ => st1.final_report
    (flushed ++ [data], { st1 with done_called := true, final_report := savedReport }, true)
  else if isSpecial data then
    if obs.resumed || !obs.paused then (flushed ++ [data], st1, false)
    else (flushed, { st1 with pending := st1.pending ++ [data], has_pending := true }, false)
  else
    if !(st1.done_called && obs.finished) then (flushed ++ [data], st1, false)
    else (flushed, st1, false)

/-- One iteration of the consumption loop (lines 1384-1488) under one event:
the items yielded on the output stream, the new loop state, and whether the
loop broke.  `agent.stop()` and the task cancellation at lines 1386-1387 and
1459-1460 are modelled as succeeding (their `except` guard never fires). -/
def loopStep (ev : LoopEvent) (st : LoopState) : List QueueItem × LoopState × Bool :=
  match ev with
  | .cancelled => ([], st, true)
  | .tooManyFailures => ([], st, true)
  | .timeout resumed =>
    if resumed && st.has_pending then
      (st.pending, { st with pending := [], has_pending := false }, false)
    else ([], st, false)
  | .item data obs =>
    if data = .endSignal then ([], st, true)
    else if obs.resumed && !st.pending.isEmpty then
      classifyStep data obs st.pending { st with pending := [], has_pending := false }
    else
      classifyStep data obs [] st

/-- The consumption loop run over a finite event trace: output stream items,
final state, and whether the loop broke before the trace was exhausted. -/
def runLoop : List LoopEvent → LoopState → List QueueItem × LoopState × Bool
  | [], st => ([], st, false)
  | ev :: rest, st =>
    let (out, st1, broke) := loopStep ev st
    if broke then (out, st1, true)
    else
      let (out2, st2, b2) := runLoop rest st1
      (out ++ out2, st2, b2)

/-- The slice of one page's entry in the session metrics store that
`force_display_report` reads: the cached `full_report`, when the key is
present. -/
structure PageData where
  full_report : Option String
  deriving DecidableEq, Repr

/-- The HTML document literal of `force_display_report` (lines 2017-2060). -/
def reportHtmlDoc (report_content : String) : String :=
  "\n<!DOCTYPE html>\n<html>\n<head>\n    <style>\n        .report-container \x7b\n" ++
  "            padding: 20px;\n            background: #f5f5f5;\n" ++
  "            border: 2px solid #ccc;\n            border-radius: 10px;\n" ++
  "            margin: 20px 0;\n            font-family: Arial, sans-serif;\n        \x7d\n" ++
  "        .report-title \x7b\n            color: #2c3e50;\n            text-align: center;\n" ++
  "            border-bottom: 1px solid #ccc;\n            padding-bottom: 10px;\n" ++
  "            margin-bottom: 15px;\n            font-size: 20px;\n" ++
  "            font-weight: bold;\n        \x7d\n" ++
  "        .report-content \x7b\n            white-space: pre-wrap;\n" ++
  "            font-family: monospace;\n            background: #fff;\n" ++
  "            padding: 15px;\n            border-radius: 5px;\n" ++
  "            font-size: 14px;\n            line-height: 1.4;\n" ++
  "            overflow-x: auto;\n        \x7d\n    </style>\n</head>\n<body>\n" ++
  "    <div class=\"report-container\">\n" ++
  "        <div class=\"report-title\">🚀 PERFORMANCE REPORT 🚀</div>\n" ++
  "        <div class=\"report-content\">\n" ++
  report_content ++
  "\n        </div>\n    </div>\n</body>\n</html>\n"

/-- `force_display_report` (src/api/plugins/browser_use/agent.py lines
1994-2071) over the current session's pages map: the first page carrying a
`full_report` supplies the content (a falsy cached report keeps the
placeholder), and the result is the styled HTML document. -/
def force_display_report (pages : List (String × PageData)) : String :=
  let found := pages.findSome? fun kv => kv.2.full_report
  let report_content :=
    match found with
    | some r => if r != "" then r else "No performance data available"
    | none => "No performance data available"
  reportHtmlDoc report_content

/-- The re-wrapped final report of lines 1499-1504. -/
def finalWrap (content : String) : String :=
  "\n----------- FINAL PERFORMANCE REPORT -----------\n\n" ++ content ++
  "\n\n---------------------------------------"

/-- The `finally` block of `browser_use_agent` (lines 1489-1557): the extra
messages yielded on the run's output stream, and the items pushed onto the
internal queue — which, the loop having exited, has no consumer left.
`pages` is the session's metrics pages map at exit time. -/
def loopFinally (st : LoopState) (pages : List (String × PageData)) :
    List QueueItem × List QueueItem :=
  let yields :=
    match st.final_report with
    | none => []
    | some c =>
      if strContains c "PERFORMANCE REPORT" then [QueueItem.ai c []]
      else [QueueItem.ai (finalWrap c) []]
  (yields, [QueueItem.ai (force_display_report pages) [], QueueItem.endSignal])

/-- One streaming run seen from outside: the full output stream (the loop's
yields followed by the `finally` block's yields) and the items the `finally`
block leaves on the dead internal queue. -/
def browser_use_agent_run (events : List LoopEvent)
    (pages : List (String × PageData)) : List QueueItem × List QueueItem :=
  let (out, st, _) := runLoop events initLoopState
  let (fy, pushes) := loopFinally st pages
  (out ++ fy, pushes)

/-- A forwarded output item that is a completion/report message by content: an
`AIMessage` without tool calls whose text carries one of the report markers. -/
def isReportLikeOut (q : QueueItem) : Bool :=
  match q with
  | .ai content tcs => tcs.isEmpty && hasReportMarker content
  | _ => false

/-! ## Theorems -/

/-- C1: evaluation of the registry dispatch at every agent-type value.  BASE
and BROWSER_USE resolve to their entry points and EXAMPLE fails with the
"invalid agent type" error, exactly as the claim states; but for
BROWSER_USE_BATCH — where the claim promises the batch entry point — the
dispatch raises `NameError`, because `browser_use_agent_batch` is never
imported into the module namespace of src/api/plugins/__init__.py (only
`browser_use_agent` is, at line 14). -/
theorem C1_get_web_agent_eval :
    get_web_agent .BASE = .ok .base_agent ∧
    get_web_agent .BROWSER_USE = .ok .browser_use_agent ∧
    get_web_agent .BROWSER_USE_BATCH = .error (.nameError "browser_use_agent_batch") ∧
    get_web_agent .EXAMPLE =
      .error (.valueError "Invalid agent type: WebAgentType.EXAMPLE") :=
  ⟨rfl, rfl, rfl, rfl⟩

/-- C4 counterexample: for the default session request (timeout 90000,
milliseconds per the spec) the value handed to the remote session-creation
call is 90000 * 1000 = 90000000 — the timeout is not forwarded unchanged. -/
theorem C4_counterexample :
    create_session ⟨.BROWSER_USE, none, some 90000⟩ = .ok ⟨90000000⟩ ∧
    (90000000 : Int) ≠ 90000 :=
  ⟨rfl, by decide⟩

/-- C4 (amended): for every session-creation request carrying a timeout value
(default 90000 ms), the endpoint forwards that value multiplied by 1000 as the
`api_timeout` of the remote session-creation call. -/
theorem C4_timeout_times_1000 (request : SessionRequest) (t : Int)
    (h : request.timeout = some t) :
    create_session request = .ok ⟨t * 1000⟩ := by
  simp [create_session, h]

theorem C4_timeout_times_1000_witness :
    ({ agent_type := .BROWSER_USE, timeout := some 90000 } : SessionRequest).timeout =
      some 90000 ∧
    create_session { agent_type := .BROWSER_USE, timeout := some 90000 } =
      .ok ⟨90000 * 1000⟩ :=
  ⟨rfl, C4_timeout_times_1000 _ 90000 rfl⟩

/-- C9: for every history whose last element is a dict lacking a "content"
key, the batch agent returns (rather than raises) the error string
"Error: Invalid history format (missing 'content' key)." — whose text contains
"missing 'content' key" — and constructs no browser or browsing context. -/
theorem C9_batch_missing_content_key (runRest : String → String)
    (history : List HVal) (entries : List (String × HVal))
    (hlast : history.getLast? = some (.dict entries))
    (hkey : dictGet? entries "content" = none) :
    browser_use_agent_batch runRest history =
      ⟨"Error: Invalid history format (missing 'content' key).", false⟩ ∧
    "Error: Invalid history format (missing 'content' key)." =
      "Error: Invalid history format (" ++ "missing 'content' key" ++ ")." := by
  refine ⟨?_, rfl⟩
  simp [browser_use_agent_batch, batchHistoryCheck, hlast, hkey]

theorem C9_batch_missing_content_key_witness :
    browser_use_agent_batch id [HVal.dict [("role", HVal.str "user")]] =
      ⟨"Error: Invalid history format (missing 'content' key).", false⟩ :=
  (C9_batch_missing_content_key id [HVal.dict [("role", HVal.str "user")]]
    [("role", HVal.str "user")] rfl rfl).1

/-- A falsy optional string (`None` or `""`) makes Python's `or` pick the
default. -/
theorem orDefault_of_falsy (o : Option String) (d : String)
    (h : optStrTruthy o = false) : orDefault o d = d := by
  cases o with
  | none => rfl
  | some s =>
    simp only [optStrTruthy, decide_eq_false_iff_not, not_not] at h
    simp [orDefault, h]

/-- C2 counterexample: at a concrete ANTHROPIC ModelConfig, the factory
returns the plain `ChatAnthropic` client.  Its calls go through the standard
messages endpoint — not the beta endpoint — and its `bind_tools` converts a
native-format tool instead of passing it through, so the claim fails on the
code: `BetaChatAnthropic` (src/api/providers.py lines 17-50) exists but
`create_llm` never constructs it. -/
theorem C2_counterexample :
    create_llm { provider := .member .ANTHROPIC, api_key := some "k" } (fun _ => none) =
      .ok (.chatAnthropic "claude-3-7-sonnet-latest" none none (some "k") [], true) ∧
    ChatClient.messagesEndpoint
      (.chatAnthropic "claude-3-7-sonnet-latest" none none (some "k") []) = .standard ∧
    ChatClient.bindToolsAnthropic
      (.chatAnthropic "claude-3-7-sonnet-latest" none none (some "k") [])
      [.dictWithType "computer-use tool"] =
      [.converted (.dictWithType "computer-use tool")] :=
  ⟨rfl, rfl, rfl⟩

/-- C2 (amended): for every ModelConfig with provider=ANTHROPIC the factory
returns the plain `ChatAnthropic` client (model defaulting to
"claude-3-7-sonnet-latest") with vision = true; that client keeps the standard
messages endpoint and the standard tool-schema conversion.  The beta-endpoint
substitution and the native-format tool passthrough are implemented only by
the `BetaChatAnthropic` class, which the factory never returns. -/
theorem C2_anthropic_returns_plain_client (config : ModelConfig) (env : Env)
    (h : config.provider = .member .ANTHROPIC) :
    create_llm config env = .ok (.chatAnthropic
      (orDefault config.model_name "claude-3-7-sonnet-latest") config.max_tokens
      config.temperature
      (if optStrTruthy config.api_key then config.api_key else env.get "ANTHROPIC_API_KEY")
      config.extra_params, true) ∧
    (∀ c v, create_llm config env = .ok (c, v) →
      c.messagesEndpoint = .standard ∧
      ∀ p, c.bindToolsAnthropic [.dictWithType p] = [.converted (.dictWithType p)]) ∧
    (∀ m mt t k e p,
      ChatClient.messagesEndpoint (.betaChatAnthropic m mt t k e) = .beta ∧
      ChatClient.bindToolsAnthropic (.betaChatAnthropic m mt t k e) [.dictWithType p] =
        [.passedThrough (.dictWithType p)]) := by
  have h1 : create_llm config env = .ok (.chatAnthropic
      (orDefault config.model_name "claude-3-7-sonnet-latest") config.max_tokens
      config.temperature
      (if optStrTruthy config.api_key then config.api_key else env.get "ANTHROPIC_API_KEY")
      config.extra_params, true) := by
    simp [create_llm, h]
  refine ⟨h1, ?_, ?_⟩
  · intro c v hc
    rw [h1] at hc
    injection hc with hc
    injection hc with hc1 hc2
    subst hc1
    exact ⟨rfl, fun p => rfl⟩
  · intro m mt t k e p
    exact ⟨rfl, rfl⟩

theorem C2_anthropic_returns_plain_client_witness :
    create_llm { provider := .member .ANTHROPIC, model_name := some "claude-3-5-sonnet" }
      (fun _ => none) =
      .ok (.chatAnthropic (orDefault (some "claude-3-5-sonnet") "claude-3-7-sonnet-latest")
        none none
        (if optStrTruthy none then none else Env.get (fun _ => none) "ANTHROPIC_API_KEY")
        [], true) :=
  (C2_anthropic_returns_plain_client
    { provider := .member .ANTHROPIC, model_name := some "claude-3-5-sonnet" }
    (fun _ => none) rfl).1

/-- C8: the provider-factory dispatch.  Every ModelConfig whose provider is one
of the five enumeration members yields a (client, vision flag) pair; ANTHROPIC
with no (truthy) model name defaults to "claude-3-7-sonnet-latest" with
vision = true; DEEPSEEK reports vision = false and targets the
DeepSeek-compatible base endpoint; any other provider value raises the
"Unsupported provider" error. -/
theorem C8_create_llm_dispatch (config : ModelConfig) (env : Env) :
    (∀ p : ModelProvider, config.provider = .member p →
      returnsPair (create_llm config env) = true) ∧
    (config.provider = .member .ANTHROPIC → optStrTruthy config.model_name = false →
      create_llm config env = .ok (.chatAnthropic "claude-3-7-sonnet-latest"
        config.max_tokens config.temperature
        (if optStrTruthy config.api_key then config.api_key
         else env.get "ANTHROPIC_API_KEY") config.extra_params, true)) ∧
    (config.provider = .member .DEEPSEEK →
      create_llm config env = .ok (.chatOpenAI (some "https://api.deepseek.com/v1")
        (orDefault config.model_name "deepseek-chat") config.temperature
        config.max_tokens
        (some (if optStrTruthy config.api_key then (config.api_key).getD ""
               else env.getD "DEEPSEEK_API_KEY" "")) config.extra_params, false)) ∧
    (∀ s, config.provider = .other s →
      create_llm config env = .error (.valueError ("Unsupported provider: " ++ s))) := by
  refine ⟨?_, ?_, ?_, ?_⟩
  · intro p hp
    cases p <;> simp [create_llm, hp, returnsPair]
  · intro hp hm
    simp [create_llm, hp, orDefault_of_falsy config.model_name _ hm]
  · intro hp
    simp [create_llm, hp]
  · intro s hp
    simp [create_llm, hp, ProviderValue.pyStr]

theorem C8_create_llm_dispatch_witness :
    returnsPair (create_llm { provider := .member .GEMINI } (fun _ => none)) = true ∧
    create_llm { provider := .member .ANTHROPIC } (fun _ => none) =
      .ok (.chatAnthropic "claude-3-7-sonnet-latest" none none
        (if optStrTruthy none then none else Env.get (fun _ => none) "ANTHROPIC_API_KEY")
        [], true) ∧
    create_llm { provider := .member .DEEPSEEK } (fun _ => none) =
      .ok (.chatOpenAI (some "https://api.deepseek.com/v1")
        (orDefault none "deepseek-chat") none none
        (some (if optStrTruthy none then (none : Option String).getD ""
               else Env.getD (fun _ => none) "DEEPSEEK_API_KEY" "")) [], false) ∧
    create_llm { provider := .other "<class 'str'>" } (fun _ => none) =
      .error (.valueError ("Unsupported provider: " ++ "<class 'str'>")) :=
  ⟨(C8_create_llm_dispatch { provider := .member .GEMINI } (fun _ => none)).1 .GEMINI rfl,
   (C8_create_llm_dispatch { provider := .member .ANTHROPIC } (fun _ => none)).2.1 rfl rfl,
   (C8_create_llm_dispatch { provider := .member .DEEPSEEK } (fun _ => none)).2.2.1 rfl,
   (C8_create_llm_dispatch { provider := .other "<class 'str'>" } (fun _ => none)).2.2.2
     "<class 'str'>" rfl⟩

/-- Shared helper: the empty-message short-circuit of `handle_chat` (line 220)
fires for an empty message list or a blank-content final message, before the
session-id check and before the controller rebind, and — `empty_stream` being
unbound in the module — its response expression raises `NameError`, surfaced
as the 500 error envelope, with the controller untouched and no agent
created. -/
theorem handle_chat_empty_aux (request : ChatRequest) (ctrl : ControllerState)
    (h : request.messages = [] ∨
      ∃ m, request.messages.getLast? = some m ∧ m.content = "") :
    handle_chat request ctrl =
      ⟨.errorEnvelope (.nameError "empty_stream"), ctrl, false⟩ := by
  rcases h with h | ⟨m, hm, hc⟩
  · simp [handle_chat, h, indexModuleBinds]
  · have hne : request.messages ≠ [] := by
      intro he
      rw [he] at hm
      simp at hm
    simp [handle_chat, hne, hm, hc, indexModuleBinds]

/-- C5: evaluation at the failing inputs.  For a chat request whose message
list is empty, and likewise for one whose final message has empty content,
the empty-message branch fires — as the claim says, the controller's session
id is not rebound and no agent run is created — but the branch's response
expression `stream_vercel_format(empty_stream())` raises `NameError`,
`empty_stream` being neither imported nor defined in src/api/index.py, so the
endpoint answers with the HTTP 500 `NameError` envelope instead of the
empty-stream encoding the claim promises. -/
theorem C5_empty_stream_name_error :
    handle_chat
      { session_id := "sess-1", agent_type := .BROWSER_USE, messages := [],
        agent_settings := ⟨100⟩, model_settings := ⟨"gpt-4o", none, none⟩ }
      ⟨some "other", true⟩ =
      ⟨.errorEnvelope (.nameError "empty_stream"), ⟨some "other", true⟩, false⟩ ∧
    handle_chat
      { session_id := "sess-1", agent_type := .BROWSER_USE,
        messages := [⟨"user", ""⟩], agent_settings := ⟨100⟩,
        model_settings := ⟨"gpt-4o", none, none⟩ }
      ⟨some "other", true⟩ =
      ⟨.errorEnvelope (.nameError "empty_stream"), ⟨some "other", true⟩, false⟩ ∧
    ChatOutcome.errorEnvelope (.nameError "empty_stream") ≠ ChatOutcome.emptyStream :=
  ⟨rfl, rfl, by decide⟩

/-- C10 counterexample: at a concrete chat request with empty session id and
an empty message list, the empty-message branch — not the 400 branch — answers
the request, but its outcome is the 500 `NameError` envelope, not the
empty-stream response the claim asserts. -/
theorem C10_counterexample :
    (handle_chat
      { session_id := "", agent_type := .BASE, messages := [],
        agent_settings := ⟨100⟩, model_settings := ⟨"m", none, none⟩ }
      ⟨none, false⟩).outcome = .errorEnvelope (.nameError "empty_stream") ∧
    (handle_chat
      { session_id := "", agent_type := .BASE, messages := [],
        agent_settings := ⟨100⟩, model_settings := ⟨"m", none, none⟩ }
      ⟨none, false⟩).outcome ≠ .emptyStream :=
  ⟨rfl, by decide⟩

/-- C10 (amended): the empty-message short-circuit runs before the session-id
presence check: every request with an empty list or blank final message is
answered by that branch even when session_id is the empty string — though,
`empty_stream` being an unbound name in src/api/index.py, the branch yields
the HTTP 500 `NameError` envelope rather than the empty-stream encoding, and
in particular never the 400 — so the 400 "Session ID is required" response is
reachable only for a non-empty message list whose final message content is
non-blank. -/
theorem C10_empty_check_precedes_session_check :
    (∀ (request : ChatRequest) (ctrl : ControllerState), request.session_id = "" →
      (request.messages = [] ∨
        ∃ m, request.messages.getLast? = some m ∧ m.content = "") →
      (handle_chat request ctrl).outcome = .errorEnvelope (.nameError "empty_stream") ∧
      (handle_chat request ctrl).outcome ≠ .badRequestSessionId) ∧
    (∀ (request : ChatRequest) (ctrl : ControllerState),
      (handle_chat request ctrl).outcome = .badRequestSessionId →
      request.messages ≠ [] ∧
        ∀ m, request.messages.getLast? = some m → m.content ≠ "") := by
  constructor
  · intro request ctrl _ h
    rw [handle_chat_empty_aux request ctrl h]
    exact ⟨rfl, by simp⟩
  · intro request ctrl hout
    by_cases h1 : request.messages = [] ∨
        ∃ m, request.messages.getLast? = some m ∧ m.content = ""
    · rw [handle_chat_empty_aux request ctrl h1] at hout
      cases hout
    · push_neg at h1
      obtain ⟨hne, hlast⟩ := h1
      exact ⟨hne, hlast⟩

theorem C10_empty_check_precedes_session_check_witness :
    ((handle_chat
      { session_id := "", agent_type := .BASE, messages := [⟨"user", ""⟩],
        agent_settings := ⟨100⟩, model_settings := ⟨"m", none, none⟩ }
      ⟨none, false⟩).outcome = .errorEnvelope (.nameError "empty_stream") ∧
     (handle_chat
      { session_id := "", agent_type := .BASE, messages := [⟨"user", ""⟩],
        agent_settings := ⟨100⟩, model_settings := ⟨"m", none, none⟩ }
      ⟨none, false⟩).outcome ≠ .badRequestSessionId) ∧
    (({ session_id := "", agent_type := .BASE,
        messages := [⟨"user", "hello"⟩], agent_settings := ⟨100⟩,
        model_settings := ⟨"m", none, none⟩ } : ChatRequest).messages ≠ [] ∧
      ∀ m, ([⟨"user", "hello"⟩] : List ClientMessage).getLast? = some m →
        m.content ≠ "") :=
  ⟨C10_empty_check_precedes_session_check.1 _ ⟨none, false⟩ rfl
     (Or.inr ⟨⟨"user", ""⟩, rfl, rfl⟩),
   C10_empty_check_precedes_session_check.2
     { session_id := "", agent_type := .BASE, messages := [⟨"user", "hello"⟩],
       agent_settings := ⟨100⟩, model_settings := ⟨"m", none, none⟩ }
     ⟨none, false⟩ rfl⟩

/-- C7: two sequential resume requests for the same session id, the second
arriving within 1.0 second of the first (whose first underlying attempt
succeeded): the underlying resume logic runs exactly once — during the first
request — and the second request makes no invocation, answering with the
success-shaped "Resume already in progress" response. -/
theorem C7_resume_cooldown (sid : String) (t1 t2 : ℚ)
    (attempts : ℕ → ResumeResult) (st0 : ResumeState)
    (h0 : st0.last_resume.lookup sid = none)
    (h1 : attempts 0 = .success)
    (hlt : t2 - t1 < 1) :
    (resume_session sid t1 attempts st0).2.2 = 1 ∧
    (resume_session sid t2 attempts (resume_session sid t1 attempts st0).2.1).1 =
      .alreadyInProgress t2 ∧
    ((resume_session sid t2 attempts (resume_session sid t1 attempts st0).2.1).1).statusStr =
      "success" ∧
    (resume_session sid t2 attempts (resume_session sid t1 attempts st0).2.1).2.2 = 0 := by
  have hfirst : resume_session sid t1 attempts st0 =
      (.resumedOk t1, ⟨(sid, t1) :: st0.last_resume⟩, 1) := by
    simp [resume_session, h0, h1, resumeAttempts]
  rw [hfirst]
  have hlook : (((sid, t1) :: st0.last_resume) : List (String × ℚ)).lookup sid = some t1 := by
    simp [List.lookup]
  refine ⟨rfl, ?_, ?_, ?_⟩ <;>
    simp [resume_session, hlook, hlt, ResumeResponse.statusStr]

theorem C7_resume_cooldown_witness :
    (resume_session "sess" 0 (fun _ => .success) ⟨[]⟩).2.2 = 1 ∧
    (resume_session "sess" (1/2) (fun _ => .success)
      (resume_session "sess" 0 (fun _ => .success) ⟨[]⟩).2.1).1 =
      .alreadyInProgress (1/2) ∧
    ((resume_session "sess" (1/2) (fun _ => .success)
      (resume_session "sess" 0 (fun _ => .success) ⟨[]⟩).2.1).1).statusStr = "success" ∧
    (resume_session "sess" (1/2) (fun _ => .success)
      (resume_session "sess" 0 (fun _ => .success) ⟨[]⟩).2.1).2.2 = 0 :=
  C7_resume_cooldown "sess" 0 (1/2) (fun _ => .success) ⟨[]⟩ rfl rfl (by norm_num)

/-- C3: evaluation at the failing run.  For a run whose queue delivers only
the "END" sentinel (the agent enqueued nothing before completing), the output
stream is empty — it ends with no report artifact — while the `finally` block
leaves the full HTML report document and a second END on the internal queue,
which the consumption loop has already stopped reading: the report is
generated but never delivered on the run's output stream. -/
theorem C3_report_left_on_dead_queue :
    browser_use_agent_run [.item .endSignal ⟨false, false, false⟩] [] =
      ([], [QueueItem.ai (force_display_report []) [], QueueItem.endSignal]) ∧
    ([] : List QueueItem).countP isReportLikeOut = 0 :=
  ⟨rfl, rfl⟩

/-- C6 counterexample: a run whose queue delivers one completion/report
message (a tool-call-free message carrying the 📊 marker, as the step
callback's combined done message does) forwards two report messages to the
output stream — the message itself, and its re-wrapped copy emitted again by
the loop's exit path — contradicting "at most one completion/report message is
ever forwarded to the output stream for the run". -/
theorem C6_counterexample :
    ((browser_use_agent_run [.item (.ai "📊 r" []) ⟨false, false, false⟩] []).1).countP
      isReportLikeOut = 2 := by
  decide

/-- A message the classifier of lines 1419-1424 rejects carries no report
markers (or has tool calls), so it is not report-like by content either. -/
theorem notReportLike_of_not_idr (data : QueueItem) (finished : Bool)
    (h : isDoneOrReport data finished = false) : isReportLikeOut data = false := by
  cases data with
  | ai c tcs =>
    by_cases he : tcs.isEmpty = true
    · by_cases hm : hasReportMarker c = true
      · exfalso
        have hc : c ≠ "" := by
          intro h0
          rw [h0] at hm
          exact absurd hm (by decide)
        have : isDoneOrReport (.ai c tcs) finished = true := by
          simp [isDoneOrReport, he, hm, bne_iff_ne, hc]
        rw [this] at h
        cases h
      · rw [Bool.not_eq_true] at hm
        simp [isReportLikeOut, hm]
    · rw [Bool.not_eq_true] at he
      simp [isReportLikeOut, he]
  | stopFlag => rfl
  | toolOutput i => rfl
  | endSignal => rfl

/-- The classification chain yields at most one report-like item; when it does
not break it yields none; and the pending buffer never gains a report-like
item. -/
theorem classifyStep_invariant (data : QueueItem) (obs : LoopObs)
    (flushed : List QueueItem) (st1 : LoopState)
    (hfl : flushed.countP isReportLikeOut = 0)
    (hp1 : ∀ q ∈ st1.pending, isReportLikeOut q = false) :
    ((classifyStep data obs flushed st1).1).countP isReportLikeOut ≤ 1 ∧
    ((classifyStep data obs flushed st1).2.2 = false →
      ((classifyStep data obs flushed st1).1).countP isReportLikeOut = 0) ∧
    (∀ q ∈ (classifyStep data obs flushed st1).2.1.pending, isReportLikeOut q = false) := by
  by_cases hidr : isDoneOrReport data obs.finished = true
  · by_cases hdc : st1.done_called = true
    · refine ⟨?_, fun _ => ?_, ?_⟩ <;> simp [classifyStep, hidr, hdc, hfl, hp1] <;>
        exact hp1
    · rw [Bool.not_eq_true] at hdc
      refine ⟨?_, ?_, ?_⟩
      · simp [classifyStep, hidr, hdc, List.countP_append, hfl]
        cases h : isReportLikeOut data <;> simp [h]
      · intro hbk
        exfalso
        simp [classifyStep, hidr, hdc] at hbk
      · simpa [classifyStep, hidr, hdc] using hp1
  · rw [Bool.not_eq_true] at hidr
    have hnr : isReportLikeOut data = false := notReportLike_of_not_idr data _ hidr
    by_cases hsp : isSpecial data = true
    · by_cases hres : (obs.resumed || !obs.paused) = true
      · refine ⟨?_, fun _ => ?_, ?_⟩ <;>
          simp [classifyStep, hidr, hsp, hres, List.countP_append, hfl, hnr, hp1] <;>
          exact hp1
      · rw [Bool.not_eq_true] at hres
        refine ⟨?_, fun _ => ?_, ?_⟩
        · simp [classifyStep, hidr, hsp, hres, hfl]
        · simp [classifyStep, hidr, hsp, hres, hfl]
        · intro q hq
          simp [classifyStep, hidr, hsp, hres] at hq
          rcases hq with hq | hq
          · exact hp1 q hq
          · rw [hq]
            exact hnr
    · rw [Bool.not_eq_true] at hsp
      by_cases hnd : (st1.done_called && obs.finished) = true
      · refine ⟨?_, fun _ => ?_, ?_⟩ <;> simp [classifyStep, hidr, hsp, hnd, hfl, hp1] <;>
          exact hp1
      · rw [Bool.not_eq_true] at hnd
        refine ⟨?_, fun _ => ?_, ?_⟩ <;>
          simp [classifyStep, hidr, hsp, hnd, List.countP_append, hfl, hnr, hp1] <;>
          exact hp1

/-- One loop iteration yields at most one report-like item; a non-breaking
iteration yields none; and the pending buffer never holds a report-like
item. -/
theorem loopStep_invariant (ev : LoopEvent) (st : LoopState)
    (hp : ∀ q ∈ st.pending, isReportLikeOut q = false) :
    ((loopStep ev st).1).countP isReportLikeOut ≤ 1 ∧
    ((loopStep ev st).2.2 = false → ((loopStep ev st).1).countP isReportLikeOut = 0) ∧
    (∀ q ∈ (loopStep ev st).2.1.pending, isReportLikeOut q = false) := by
  have hcount : st.pending.countP isReportLikeOut = 0 :=
    List.countP_eq_zero.mpr fun a ha => by simp [hp a ha]
  cases ev with
  | cancelled =>
    exact ⟨by simp [loopStep], fun _ => by simp [loopStep], by simpa [loopStep] using hp⟩
  | tooManyFailures =>
    exact ⟨by simp [loopStep], fun _ => by simp [loopStep], by simpa [loopStep] using hp⟩
  | timeout resumed =>
    by_cases hb : (resumed && st.has_pending) = true
    · exact ⟨by simp [loopStep, hb, hcount], fun _ => by simp [loopStep, hb, hcount],
        by simp [loopStep, hb]⟩
    · rw [Bool.not_eq_true] at hb
      exact ⟨by simp [loopStep, hb], fun _ => by simp [loopStep, hb],
        by simpa [loopStep, hb] using hp⟩
  | item data obs =>
    by_cases hend : data = QueueItem.endSignal
    · exact ⟨by simp [loopStep, hend], by simp [loopStep, hend],
        by simpa [loopStep, hend] using hp⟩
    · by_cases hfb : (obs.resumed && !st.pending.isEmpty) = true
      · have h := classifyStep_invariant data obs st.pending
          { st with pending := [], has_pending := false } hcount (by simp)
        simpa [loopStep, hend, hfb] using h
      · rw [Bool.not_eq_true] at hfb
        have h := classifyStep_invariant data obs [] st rfl hp
        simpa [loopStep, hend, hfb] using h

/-- Over any event trace, the consumption loop proper forwards at most one
report-like item: the branch that forwards one breaks the loop at once. -/
theorem runLoop_count (events : List LoopEvent) (st : LoopState)
    (hp : ∀ q ∈ st.pending, isReportLikeOut q = false) :
    ((runLoop events st).1).countP isReportLikeOut ≤ 1 := by
  induction events generalizing st with
  | nil => simp [runLoop]
  | cons ev rest ih =>
    obtain ⟨h1, h2, h3⟩ := loopStep_invariant ev st hp
    rcases hls : loopStep ev st with ⟨out, st1, broke⟩
    rw [hls] at h1 h2 h3
    simp only at h1 h2 h3
    cases broke with
    | true => simpa [runLoop, hls] using h1
    | false =>
      have h0 := h2 rfl
      have hih := ih st1 h3
      simp [runLoop, hls, List.countP_append, h0]
      exact hih

/-- The `finally` block yields at most one extra message, and none when no
final report was captured. -/
theorem loopFinally_yields (st : LoopState) (pages : List (String × PageData)) :
    (loopFinally st pages).1.length ≤ 1 ∧
    (st.final_report = none → (loopFinally st pages).1 = []) := by
  cases h : st.final_report with
  | none => simp [loopFinally, h]
  | some c =>
    refine ⟨?_, by simp [h]⟩
    simp only [loopFinally, h]
    split <;> simp

/-- C6 (amended): once a step carrying a "done" action has been processed
(the run-scoped `_done_processed` flag is set), every later step-callback
invocation carrying another "done" action is suppressed entirely — it queues
only its previous-goal/memory/next-goal messages and no completion message,
leaving the flags untouched; the consumption loop forwards at most one
completion/report message per run; the loop's exit path adds a message only
when a final report was captured; and the full output stream of a run carries
at most two report messages (the forwarded one and its re-wrapped re-emission
on exit). -/
theorem C6_amended :
    (∀ (step_number : ℕ) (brain : AgentBrain) (actions : List ActionModel)
      (reportRes : Option String) (fl : StepFlags),
      fl.doneProcessed = true → hasDoneAction actions = true →
      yield_data step_number brain actions reportRes fl =
        (specialMessages step_number brain, fl)) ∧
    (∀ events : List LoopEvent,
      ((runLoop events initLoopState).1).countP isReportLikeOut ≤ 1) ∧
    (∀ (st : LoopState) (pages : List (String × PageData)), st.final_report = none →
      (loopFinally st pages).1 = []) ∧
    (∀ (events : List LoopEvent) (pages : List (String × PageData)),
      ((browser_use_agent_run events pages).1).countP isReportLikeOut ≤ 2) := by
  refine ⟨?_, ?_, ?_, ?_⟩
  · intro step_number brain actions reportRes fl h1 h2
    simp [yield_data, h1, h2]
  · intro events
    exact runLoop_count events initLoopState (by simp [initLoopState])
  · intro st pages h
    exact (loopFinally_yields st pages).2 h
  · intro events pages
    unfold browser_use_agent_run
    rcases hrl : runLoop events initLoopState with ⟨out, st, b⟩
    have h1 : out.countP isReportLikeOut ≤ 1 := by
      have h := runLoop_count events initLoopState (by simp [initLoopState])
      rw [hrl] at h
      simpa using h
    have h2 : ((loopFinally st pages).1).countP isReportLikeOut ≤ 1 :=
      le_trans (List.countP_le_length _) (loopFinally_yields st pages).1
    simp only [List.countP_append]
    omega

theorem C6_amended_witness :
    yield_data 1 ⟨"", "", ""⟩ [[("done", some [("text", some "d")])]] none ⟨true, false⟩ =
      (specialMessages 1 ⟨"", "", ""⟩, ⟨true, false⟩) ∧
    ((runLoop [] initLoopState).1).countP isReportLikeOut ≤ 1 ∧
    (loopFinally initLoopState []).1 = [] ∧
    ((browser_use_agent_run [] []).1).countP isReportLikeOut ≤ 2 :=
  ⟨C6_amended.1 1 ⟨"", "", ""⟩ [[("done", some [("text", some "d")])]] none
      ⟨true, false⟩ rfl rfl,
   C6_amended.2.1 [],
   C6_amended.2.2.1 initLoopState [] rfl,
   C6_amended.2.2.2 [] []⟩

end Bugzer
